import Mathlib

/-!
Shallow embedding of the CObot+ Raspberry Pi attendance core
(`raspberry-pi/app_optimized.py`): the schedule window resolver, the window
cache, the deduplicated attendance writer, the bounded frame dispatch queue,
and the camera retry loop. Machine integers are modelled as `Nat`/`Int`;
fallible external calls (the Supabase client) are modelled by explicit fault
flags and `Except` values; the module-level mutable state is passed
explicitly.
-/

set_option autoImplicit false

namespace Cobot

/-- Configured early-window size, `CONFIG["EARLY_WINDOW_MINUTES"] = 15`. -/
def EARLY_WINDOW_MINUTES : Int := 15

/-- Configured late-grace size, `CONFIG["LATE_GRACE_MINUTES"] = 15`. -/
def LATE_GRACE_MINUTES : Int := 15

/-- Configured end buffer, `CONFIG["END_BUFFER_MINUTES"] = 15`. -/
def END_BUFFER_MINUTES : Int := 15

/-- Window cache refresh interval, `CONFIG["WINDOW_CHECK_INTERVAL"] = 30` seconds. -/
def WINDOW_CHECK_INTERVAL : Int := 30

/-- Camera retry bound, `CONFIG["MAX_CAMERA_RETRIES"] = 5`. -/
def MAX_CAMERA_RETRIES : Nat := 5

/-- Dispatch queue capacity, `queue.Queue(maxsize=3)`. -/
def FACE_QUEUE_MAXSIZE : Nat := 3

/-- A wall-clock time of day, as produced by `datetime.time` /
`parse_time_string`: hour, minute and second components. -/
structure Tm where
  hour : Nat
  minute : Nat
  second : Nat
deriving DecidableEq, Repr

/-- `time_to_minutes(t)`: minutes since midnight, `t.hour * 60 + t.minute`.
The seconds component is discarded. -/
def time_to_minutes (t : Tm) : Nat :=
  t.hour * 60 + t.minute

/-- One row of the `section_schedules` query result (already filtered to the
current day of week by the `.eq("day_of_week", current_day)` clause), with its
joined `sections(course_id, name)` data. `start_time`/`end_time` are the
values produced by `parse_time_string`. -/
structure ScheduleEntry where
  section_id : String
  course_id : String
  section_name : String
  start_time : Tm
  end_time : Tm
deriving DecidableEq, Repr

/-- The dict built by `get_current_attendance_window` for an active window
(the formatted display strings `window_start`/`late_cutoff`/`window_end` are
kept as the numeric minute values they are formatted from). -/
structure AttendanceWindow where
  section_id : String
  course_id : String
  section_name : String
  start_time : Tm
  end_time : Tm
  is_late : Bool
  window_start : Int
  late_cutoff : Int
  window_end : Int
  status : String
deriving DecidableEq, Repr

/-- The schedule-scanning loop of `get_current_attendance_window`
(lines 171-207): for each schedule of the current day compute
`window_start = start - 15`, `late_cutoff = start + 15`,
`window_end = end - 15`, and return the first entry with
`window_start <= current_minutes <= window_end`, tagging status
`"late"` when `current_minutes > late_cutoff` and `"present"` otherwise.
`current_minutes` is `time_to_minutes(now)`. -/
def resolveWindow (current_minutes : Int) : List ScheduleEntry → Option AttendanceWindow
  | [] => none
  | schedule :: rest =>
    let start_minutes : Int := time_to_minutes schedule.start_time
    let end_minutes : Int := time_to_minutes schedule.end_time
    let window_start := start_minutes - EARLY_WINDOW_MINUTES
    let late_cutoff := start_minutes + LATE_GRACE_MINUTES
    let window_end := end_minutes - END_BUFFER_MINUTES
    if window_start ≤ current_minutes ∧ current_minutes ≤ window_end then
      let is_late : Bool := decide (current_minutes > late_cutoff)
      some
        { section_id := schedule.section_id
          course_id := schedule.course_id
          section_name := schedule.section_name
          start_time := schedule.start_time
          end_time := schedule.end_time
          is_late := is_late
          window_start := window_start
          late_cutoff := late_cutoff
          window_end := window_end
          status := if is_late then "late" else "present" }
    else
      resolveWindow current_minutes rest

/-- The window computed at a concrete wall-clock instant `now` (with a
seconds component): the code converts `now` through `time_to_minutes`
before comparing. -/
def get_window_at (now : Tm) (schedules : List ScheduleEntry) : Option AttendanceWindow :=
  resolveWindow (time_to_minutes now) schedules

/-- The interval test of the spec: `start - EARLY <= now <= end - BUFFER`
(in minutes since midnight). -/
def in_window (m : Int) (s : ScheduleEntry) : Prop :=
  (time_to_minutes s.start_time : Int) - EARLY_WINDOW_MINUTES ≤ m ∧
    m ≤ (time_to_minutes s.end_time : Int) - END_BUFFER_MINUTES

instance (m : Int) (s : ScheduleEntry) : Decidable (in_window m s) := by
  unfold in_window; infer_instance

/-- The cache part of the resolver's module state: the memoized
`current_attendance_window` and the epoch seconds of `last_window_check`. -/
structure CacheState where
  current_attendance_window : Option AttendanceWindow
  last_window_check : Int
deriving DecidableEq, Repr

/-- `get_current_attendance_window()` (lines 131-212) over explicit state:
`now_epoch` is `time.time()`, `supabase_ok` says whether the client was
initialized, `query` is the outcome of the `section_schedules` query for the
current day (`Except.error` models the query raising), `now_time` is
`datetime.datetime.now().time()`. Returns the new module state and the
returned value. On a raised exception the handler sets the cached window to
`none` and returns `none`. -/
def get_current_attendance_window (st : CacheState) (now_epoch : Int)
    (supabase_ok : Bool) (query : Except Unit (List ScheduleEntry)) (now_time : Tm) :
    CacheState × Option AttendanceWindow :=
  if now_epoch - st.last_window_check < WINDOW_CHECK_INTERVAL then
    (st, st.current_attendance_window)
  else
    let st1 : CacheState := { st with last_window_check := now_epoch }
    if supabase_ok then
      match query with
      | Except.error _ => ({ st1 with current_attendance_window := none }, none)
      | Except.ok schedules =>
        match resolveWindow (time_to_minutes now_time) schedules with
        | some w => ({ st1 with current_attendance_window := some w }, some w)
        | none => ({ st1 with current_attendance_window := none }, none)
    else
      ({ st1 with current_attendance_window := none }, none)

/-- A row of the `students` table as selected by `get_student_cached`
(`id, nickname`, looked up by `matric_no`). -/
structure StudentRow where
  id : String
  matric_no : String
  nickname : String
deriving DecidableEq, Repr

/-- A row of `student_section_enrollments` (the columns the writer filters on). -/
structure EnrollmentRow where
  student_id : String
  section_id : String
deriving DecidableEq, Repr

/-- A row of `class_sessions` (the columns the core reads and writes). -/
structure SessionRow where
  id : String
  section_id : String
  class_date : String
deriving DecidableEq, Repr

/-- A row of `attendance_records` (the columns the core reads and writes;
the timestamp column is an uninterpreted value and is not modelled). -/
structure AttendanceRow where
  id : String
  student_id : String
  class_session_id : String
  status : String
deriving DecidableEq, Repr

/-- A row of `student_course_attendance`. -/
structure CourseAttRow where
  student_id : String
  course_id : String
  absence_count : Nat
deriving DecidableEq, Repr

/-- The persistence collaborator's state: the five tables the writer touches. -/
structure DB where
  students : List StudentRow
  enrollments : List EnrollmentRow
  class_sessions : List SessionRow
  attendance_records : List AttendanceRow
  student_course_attendance : List CourseAttRow
deriving DecidableEq, Repr

/-- Fault injection for the fallible Supabase calls inside `log_attendance`
and its helpers: a `true` flag means the corresponding `.execute()` raises
(or, for `student_lookup`, that `get_student_cached` catches its own
exception and returns `None`). -/
structure Faults where
  student_lookup : Bool
  enroll_query : Bool
  session_query : Bool
  session_insert : Bool
  existing_query : Bool
  attendance_insert : Bool
  course_query : Bool
  course_insert : Bool
deriving DecidableEq, Repr

/-- All external calls succeed. -/
def noFaults : Faults :=
  { student_lookup := false, enroll_query := false, session_query := false
    session_insert := false, existing_query := false, attendance_insert := false
    course_query := false, course_insert := false }

/-- `get_student_cached(matric_no)` (lines 246-256): select the first
`students` row with this `matric_no`; on a raised exception return `None`
(the lru cache is a performance detail and is not modelled). -/
def get_student_cached (db : DB) (faults : Faults) (matric_no : String) :
    Option StudentRow :=
  if faults.student_lookup then none
  else db.students.find? (fun s => s.matric_no == matric_no)

/-- `get_or_create_class_session(section_id, ...)` (lines 259-288): look up
today's session for the section, otherwise insert
`session_{section_id}_{today}`; any raised exception is caught inside and
yields `None` with whatever state the storage already has. -/
def get_or_create_class_session (db : DB) (faults : Faults) (section_id : String)
    (today : String) : Option String × DB :=
  if faults.session_query then (none, db)
  else
    match db.class_sessions.find?
        (fun s => s.section_id == section_id && s.class_date == today) with
    | some row => (some row.id, db)
    | none =>
      if faults.session_insert then (none, db)
      else
        let session_id := "session_" ++ section_id ++ "_" ++ today
        (some session_id,
          { db with class_sessions := db.class_sessions ++
              [{ id := session_id, section_id := section_id, class_date := today }] })

/-- The module-level dict `attendance_logged_today`:
`{section_id: set(matric_nos)}`, modelled as an association list. -/
abbrev Dedup := List (String × List String)

/-- `section_id in attendance_logged_today`. -/
def dedup_has_key : Dedup → String → Bool
  | [], _ => false
  | p :: rest, k => p.1 == k || dedup_has_key rest k

/-- `student_matric in attendance_logged_today[k]` (false when the key is absent). -/
def dedup_mem : Dedup → String → String → Bool
  | [], _, _ => false
  | p :: rest, k, m => (p.1 == k && p.2.contains m) || dedup_mem rest k m

/-- The lazy init `attendance_logged_today[section_id] = set()` (lines 302-303). -/
def dedup_init_key (d : Dedup) (k : String) : Dedup :=
  if dedup_has_key d k then d else (k, []) :: d

/-- `attendance_logged_today[k].add(m)`: adds `m` to the set stored under
key `k` (a no-op on entries with other keys). -/
def dedup_add : Dedup → String → String → Dedup
  | [], _, _ => []
  | p :: rest, k, m =>
    (if p.1 == k then (p.1, m :: p.2) else p) :: dedup_add rest k m

/-- `log_attendance(student_matric)` (lines 291-386) over explicit state.
`window` is the module-level `current_attendance_window`, `supabase_ok` the
client's presence, `today` the current calendar date string (standing for
both `date.today()` and `utcnow().date()`). Returns the boolean result, the
new storage state and the new dedup dict. Each raised exception inside the
`try` modelled via `faults` jumps to the handler, which returns `False` with
state as mutated so far. -/
def log_attendance (supabase_ok : Bool) (window : Option AttendanceWindow)
    (db : DB) (dedup : Dedup) (faults : Faults) (student_matric : String)
    (today : String) : Bool × DB × Dedup :=
  match window with
  | none => (false, db, dedup)
  | some w =>
    if supabase_ok then
      let section_id := w.section_id
      let dedup1 := dedup_init_key dedup section_id
      if dedup_mem dedup1 section_id student_matric then (false, db, dedup1)
      else
        match get_student_cached db faults student_matric with
        | none => (false, db, dedup1)
        | some student =>
          let student_id := student.id
          let course_id := w.course_id
          if faults.enroll_query then (false, db, dedup1)
          else if db.enrollments.any
              (fun e => e.student_id == student_id && e.section_id == section_id) then
            match get_or_create_class_session db faults section_id today with
            | (none, db1) => (false, db1, dedup1)
            | (some class_session_id, db1) =>
              if faults.existing_query then (false, db1, dedup1)
              else if db1.attendance_records.any
                  (fun r => r.student_id == student_id &&
                    r.class_session_id == class_session_id) then
                (false, db1, dedup_add dedup1 section_id student_matric)
              else if faults.attendance_insert then (false, db1, dedup1)
              else
                let db2 := { db1 with attendance_records := db1.attendance_records ++
                  [{ id := "att_" ++ student_id ++ "_" ++ class_session_id ++ "_" ++ today
                     student_id := student_id
                     class_session_id := class_session_id
                     status := w.status }] }
                if faults.course_query then (false, db2, dedup1)
                else if db2.student_course_attendance.any
                    (fun c => c.student_id == student_id && c.course_id == course_id) then
                  (true, db2, dedup_add dedup1 section_id student_matric)
                else if faults.course_insert then (false, db2, dedup1)
                else
                  (true,
                   { db2 with student_course_attendance :=
                       db2.student_course_attendance ++
                         [{ student_id := student_id, course_id := course_id
                            absence_count := 0 }] },
                   dedup_add dedup1 section_id student_matric)
          else (false, db, dedup1)
    else (false, db, dedup)

/-- The producer-side non-blocking enqueue of `generate_frames`
(lines 471-477): `if not face_queue.full(): face_queue.put_nowait(frame)`
with `queue.Full` swallowed; `true` means the frame entered the queue. -/
def try_enqueue (q : List Nat) (frame : Nat) : Bool × List Nat :=
  if FACE_QUEUE_MAXSIZE ≤ q.length then (false, q)
  else (true, q ++ [frame])

/-- One outer-loop iteration of `capture_frames` (lines 507-545), seen
through its effect on `retry_count`: either the open fails (`isOpened()`
false or a raised exception), or the open succeeds, `retry_count = 0` is
executed at once, and then some number of reads succeed before `read()`
fails and the inner loop breaks. -/
inductive CamEvent where
  | openFail
  | openOk (successful_reads : Nat)
deriving DecidableEq, Repr

/-- The evolution of `retry_count` over one `capture_frames` outer-loop
iteration: `+1` on a failed open, reset to `0` as soon as the device opens
(line 526 runs before any `camera.read()`). -/
def capture_step (retry_count : Nat) : CamEvent → Nat
  | CamEvent.openFail => retry_count + 1
  | CamEvent.openOk _ => 0

/-- `retry_count` after a sequence of outer-loop iterations. -/
def capture_run (retry_count : Nat) : List CamEvent → Nat
  | [] => retry_count
  | e :: es => capture_run (capture_step retry_count e) es

/-- A concrete schedule entry used in the spec's worked scenario:
start 09:00, end 10:30. -/
def demo_sched : ScheduleEntry :=
  { section_id := "S1", course_id := "C1", section_name := "Sec One"
    start_time := ⟨9, 0, 0⟩, end_time := ⟨10, 30, 0⟩ }

theorem resolveWindow_nil (m : Int) : resolveWindow m [] = none := rfl

theorem resolveWindow_some_fields (m : Int) :
    ∀ (schedules : List ScheduleEntry) (w : AttendanceWindow),
      resolveWindow m schedules = some w →
      ∃ s ∈ schedules, in_window m s ∧ w.section_id = s.section_id ∧
        w.start_time = s.start_time ∧ w.end_time = s.end_time ∧
        (w.status = "late" ↔
          m > (time_to_minutes s.start_time : Int) + LATE_GRACE_MINUTES) ∧
        (w.status = "present" ↔
          ¬ m > (time_to_minutes s.start_time : Int) + LATE_GRACE_MINUTES) := by
  intro schedules
  induction schedules with
  | nil => intro w hw; simp [resolveWindow] at hw
  | cons s rest ih =>
    intro w hw
    rw [resolveWindow] at hw
    split at hw
    · rename_i hcond
      injection hw with hw
      subst hw
      refine ⟨s, by simp, hcond, rfl, rfl, rfl, ?_, ?_⟩
      · by_cases hm :
          m > (time_to_minutes s.start_time : Int) + LATE_GRACE_MINUTES <;>
          simp [hm]
      · by_cases hm :
          m > (time_to_minutes s.start_time : Int) + LATE_GRACE_MINUTES <;>
          simp [hm]
    · obtain ⟨t, ht, h1, h2⟩ := ih w hw
      exact ⟨t, by simp [ht], h1, h2⟩

theorem resolveWindow_isSome_iff (m : Int) :
    ∀ schedules : List ScheduleEntry,
      (resolveWindow m schedules).isSome ↔ ∃ s ∈ schedules, in_window m s := by
  intro schedules
  induction schedules with
  | nil => simp [resolveWindow]
  | cons s rest ih =>
    rw [resolveWindow]
    split
    · rename_i hcond
      simp only [Option.isSome_some, true_iff]
      exact ⟨s, by simp, hcond⟩
    · rename_i hcond
      simp only [ih, List.mem_cons]
      constructor
      · rintro ⟨t, ht, h⟩; exact ⟨t, Or.inr ht, h⟩
      · rintro ⟨t, ht, h⟩
        rcases ht with rfl | ht
        · exact absurd h hcond
        · exact ⟨t, ht, h⟩

/-- Claim C1: the resolver returns an attendance window exactly when the
current minute lies in some entry's `[start - EARLY, end - BUFFER]`
interval, and every returned window belongs to such an entry; for every
`now` outside every interval it returns `none`. -/
theorem claim1_resolver_window_iff (m : Int) (schedules : List ScheduleEntry) :
    ((resolveWindow m schedules).isSome ↔ ∃ s ∈ schedules, in_window m s) ∧
    (∀ w, resolveWindow m schedules = some w →
      ∃ s ∈ schedules, in_window m s ∧ w.section_id = s.section_id ∧
        w.start_time = s.start_time ∧ w.end_time = s.end_time) ∧
    (resolveWindow m schedules = none ↔ ∀ s ∈ schedules, ¬ in_window m s) := by
  refine ⟨resolveWindow_isSome_iff m schedules, ?_, ?_⟩
  · intro w hw
    obtain ⟨s, hs, h1, h2, h3, h4, _⟩ := resolveWindow_some_fields m schedules w hw
    exact ⟨s, hs, h1, h2, h3, h4⟩
  · rw [← Option.not_isSome_iff_eq_none, resolveWindow_isSome_iff m schedules]
    simp

/-- Witness for C1 at a concrete instant (09:00, inside the demo entry's
window). -/
theorem claim1_resolver_window_iff_witness :
    (resolveWindow 540 [demo_sched]).isSome ↔ ∃ s ∈ [demo_sched], in_window 540 s :=
  (claim1_resolver_window_iff 540 [demo_sched]).1

/-- Counterexample to claim C2 as stated: at the sub-minute instant
09:15:30 — strictly after the 09:15 late cutoff — the code reports status
"present", not "late", because `time_to_minutes` discards seconds. -/
theorem claim2_counterexample :
    (get_window_at ⟨9, 15, 30⟩ [demo_sched]).map AttendanceWindow.status =
      some "present" := rfl

/-- Claim C2 (amended): inside an open window the status is "late" iff the
current time truncated to whole minutes exceeds `start + LATE_GRACE`, and
"present" otherwise; the spec's scenario holds at minute granularity
(08:44 no window, 08:45 and 08:46 open with PRESENT, 09:16 and 10:15 open
with LATE, 10:16 no window), but instants inside the minute 09:15, such as
09:15:30, are PRESENT because seconds are discarded. -/
theorem claim2_late_iff_truncated (now : Tm) (schedules : List ScheduleEntry)
    (w : AttendanceWindow) (h : get_window_at now schedules = some w) :
    ((w.status = "late" ↔
        (time_to_minutes now : Int) >
          (time_to_minutes w.start_time : Int) + LATE_GRACE_MINUTES) ∧
      (w.status = "present" ↔
        ¬ (time_to_minutes now : Int) >
          (time_to_minutes w.start_time : Int) + LATE_GRACE_MINUTES)) ∧
    (get_window_at ⟨8, 44, 0⟩ [demo_sched] = none ∧
      (get_window_at ⟨8, 45, 0⟩ [demo_sched]).map AttendanceWindow.status =
        some "present" ∧
      (get_window_at ⟨8, 46, 0⟩ [demo_sched]).map AttendanceWindow.status =
        some "present" ∧
      (get_window_at ⟨9, 16, 0⟩ [demo_sched]).map AttendanceWindow.status =
        some "late" ∧
      (get_window_at ⟨10, 15, 0⟩ [demo_sched]).map AttendanceWindow.status =
        some "late" ∧
      get_window_at ⟨10, 16, 0⟩ [demo_sched] = none ∧
      (get_window_at ⟨9, 15, 30⟩ [demo_sched]).map AttendanceWindow.status =
        some "present") := by
  refine ⟨?_, rfl, rfl, rfl, rfl, rfl, rfl, rfl⟩
  obtain ⟨s, -, -, -, hstart, -, hlate, hpresent⟩ :=
    resolveWindow_some_fields (time_to_minutes now) schedules w h
  rw [hstart]
  exact ⟨hlate, hpresent⟩

/-- Witness for the amended C2 at 09:16 on the demo schedule. -/
theorem claim2_late_iff_truncated_witness :
    ∃ w, get_window_at ⟨9, 16, 0⟩ [demo_sched] = some w ∧
      (w.status = "late" ↔
        (time_to_minutes (⟨9, 16, 0⟩ : Tm) : Int) >
          (time_to_minutes w.start_time : Int) + LATE_GRACE_MINUTES) := by
  refine ⟨(get_window_at ⟨9, 16, 0⟩ [demo_sched]).get rfl, rfl, ?_⟩
  exact (claim2_late_iff_truncated ⟨9, 16, 0⟩ [demo_sched] _ rfl).1.1

/-- A last-known window for the cache counterexample. -/
def demo_window : AttendanceWindow :=
  { section_id := "S1", course_id := "C1", section_name := "Sec One"
    start_time := ⟨9, 0, 0⟩, end_time := ⟨10, 30, 0⟩, is_late := false
    window_start := 525, late_cutoff := 555, window_end := 615
    status := "present" }

/-- Counterexample to claim C3 as stated: starting from a state whose last
known window is `demo_window`, a due refresh whose schedule query raises
returns `none` and clears the cached window, instead of serving the last
known value. -/
theorem claim3_counterexample :
    (get_current_attendance_window ⟨some demo_window, 0⟩ 100 true
        (Except.error ()) ⟨9, 0, 0⟩).2 = none ∧
    (get_current_attendance_window ⟨some demo_window, 0⟩ 100 true
        (Except.error ()) ⟨9, 0, 0⟩).1.current_attendance_window = none ∧
    ¬ (get_current_attendance_window ⟨some demo_window, 0⟩ 100 true
        (Except.error ()) ⟨9, 0, 0⟩).2 = some demo_window := by
  exact ⟨rfl, rfl, by decide⟩

/-- Claim C3 (amended): when a due refresh fails (the schedule query
raises), the call catches the exception — no exception reaches the caller,
the function returns normally — but it returns `none` and resets the cached
window to `none`, discarding the last known value. -/
theorem claim3_refresh_failure (st : CacheState) (now_epoch : Int) (t : Tm)
    (h : WINDOW_CHECK_INTERVAL ≤ now_epoch - st.last_window_check) :
    get_current_attendance_window st now_epoch true (Except.error ()) t =
      ({ current_attendance_window := none, last_window_check := now_epoch },
        none) := by
  rw [get_current_attendance_window, if_neg (not_lt.mpr h)]
  rfl

/-- Witness for the amended C3: a due refresh (elapsed 100 ≥ 30) with a
failing query, starting from a cached window. -/
theorem claim3_refresh_failure_witness :
    get_current_attendance_window ⟨some demo_window, 0⟩ 100 true
        (Except.error ()) ⟨9, 0, 0⟩ =
      ({ current_attendance_window := none, last_window_check := 100 }, none) :=
  claim3_refresh_failure ⟨some demo_window, 0⟩ 100 ⟨9, 0, 0⟩ (by decide)

theorem dedup_has_key_init (d : Dedup) (k : String) :
    dedup_has_key (dedup_init_key d k) k = true := by
  unfold dedup_init_key
  split
  · rename_i h; exact h
  · simp [dedup_has_key]

theorem dedup_init_key_idem (d : Dedup) (k : String) :
    dedup_init_key (dedup_init_key d k) k = dedup_init_key d k := by
  conv_lhs => rw [dedup_init_key]
  rw [dedup_has_key_init]
  rfl

theorem dedup_mem_init_key (d : Dedup) (k k' m : String) :
    dedup_mem (dedup_init_key d k) k' m = dedup_mem d k' m := by
  unfold dedup_init_key
  split
  · rfl
  · simp [dedup_mem]

theorem dedup_mem_add_self (d : Dedup) (k m : String)
    (h : dedup_has_key d k = true) :
    dedup_mem (dedup_add d k m) k m = true := by
  induction d with
  | nil => simp [dedup_has_key] at h
  | cons p rest ih =>
    rw [dedup_has_key] at h
    by_cases hp : (p.1 == k) = true
    · simp [dedup_add, dedup_mem, hp]
    · simp only [hp, Bool.false_or] at h
      simp [dedup_add, dedup_mem, hp, ih h]

/-- A section-S1 window used by the writer claims. -/
def c4_window : AttendanceWindow :=
  { section_id := "S1", course_id := "C1", section_name := "Sec One"
    start_time := ⟨9, 0, 0⟩, end_time := ⟨10, 30, 0⟩, is_late := false
    window_start := 525, late_cutoff := 555, window_end := 615
    status := "present" }

/-- A storage state with one enrolled student and no sessions or records. -/
def c4_db : DB :=
  { students := [{ id := "stu1", matric_no := "A123", nickname := "Al" }]
    enrollments := [{ student_id := "stu1", section_id := "S1" }]
    class_sessions := [], attendance_records := []
    student_course_attendance := [] }

/-- Claim C4 (the code violates it): the dedup dict
`attendance_logged_today` is never cleared at a calendar-day rollover. A
student logged for section S1 on 2025-01-01 is still marked as logged on
2025-01-02, so the day-2 call returns `False` on the in-memory fast path,
creates no day-2 session and writes no day-2 record, although storage holds
no record for the new day. -/
theorem claim4_dedup_never_reset :
    (log_attendance true (some c4_window) c4_db [] noFaults "A123"
      "2025-01-01").1 = true ∧
    (let r1 := log_attendance true (some c4_window) c4_db [] noFaults "A123"
      "2025-01-01"
     let r2 := log_attendance true (some c4_window) r1.2.1 r1.2.2 noFaults
      "A123" "2025-01-02"
     r2.1 = false ∧ r2.2.1 = r1.2.1 ∧
       r2.2.1.class_sessions.any (fun s => s.class_date == "2025-01-02") =
         false ∧
       r2.2.1.attendance_records.any
         (fun r => r.class_session_id == "session_S1_2025-01-02") = false ∧
       dedup_mem r2.2.2 "S1" "A123" = true) := by
  decide

/-- Claim C10: with no active window, or with the storage client
uninitialized, the writer returns `False` at once and neither storage nor
the dedup dict changes. -/
theorem claim10_no_window_or_client (supabase_ok : Bool)
    (window : Option AttendanceWindow) (db : DB) (dedup : Dedup)
    (faults : Faults) (matric today : String)
    (h : window = none ∨ supabase_ok = false) :
    log_attendance supabase_ok window db dedup faults matric today =
      (false, db, dedup) := by
  rcases h with rfl | rfl
  · rfl
  · cases window with
    | none => rfl
    | some w => rfl

/-- Witness for C10: a call with the client uninitialized. -/
theorem claim10_no_window_or_client_witness :
    log_attendance false (some c4_window) c4_db [] noFaults "A123"
        "2025-01-01" = (false, c4_db, []) :=
  claim10_no_window_or_client false (some c4_window) c4_db [] noFaults
    "A123" "2025-01-01" (Or.inr rfl)

/-- A storage state whose only student is not enrolled anywhere. -/
def c7_db : DB :=
  { students := [{ id := "stu1", matric_no := "A123", nickname := "Al" }]
    enrollments := [], class_sessions := [], attendance_records := []
    student_course_attendance := [] }

/-- Claim C7: for a person with no enrollment in the active window's
section, the writer returns the no-write result and leaves storage — in
particular `class_sessions` — completely unchanged: the enrollment check
short-circuits before get-or-create-session runs. -/
theorem claim7_not_enrolled (db : DB) (dedup : Dedup) (w : AttendanceWindow)
    (student : StudentRow) (matric today : String)
    (hded : dedup_mem (dedup_init_key dedup w.section_id) w.section_id matric
      = false)
    (hstu : db.students.find? (fun s => s.matric_no == matric) = some student)
    (henr : db.enrollments.any
      (fun e => e.student_id == student.id && e.section_id == w.section_id) =
      false) :
    log_attendance true (some w) db dedup noFaults matric today =
      (false, db, dedup_init_key dedup w.section_id) := by
  simp [log_attendance, get_student_cached, noFaults, hded, hstu, henr]

/-- Witness for C7: the demo student is not enrolled in S1 and the call
leaves the storage state untouched. -/
theorem claim7_not_enrolled_witness :
    log_attendance true (some c4_window) c7_db [] noFaults "A123"
        "2025-01-01" =
      (false, c7_db, dedup_init_key [] c4_window.section_id) :=
  claim7_not_enrolled c7_db [] c4_window
    { id := "stu1", matric_no := "A123", nickname := "Al" }
    "A123" "2025-01-01" (by decide) (by decide) (by decide)

/-- Claim C8: enqueuing into the full capacity-3 dispatch queue returns the
dropped-frame result and leaves the queue unchanged; enqueuing into a
non-full queue appends the frame. -/
theorem claim8_bounded_queue (q : List Nat) (frame : Nat) :
    (FACE_QUEUE_MAXSIZE ≤ q.length → try_enqueue q frame = (false, q)) ∧
    (q.length < FACE_QUEUE_MAXSIZE →
      try_enqueue q frame = (true, q ++ [frame])) := by
  constructor
  · intro h; rw [try_enqueue, if_pos h]
  · intro h; rw [try_enqueue, if_neg (not_le.mpr h)]

/-- Witness for C8: a full queue of three frames drops the fourth. -/
theorem claim8_bounded_queue_witness :
    try_enqueue [0, 1, 2] 9 = (false, [0, 1, 2]) :=
  (claim8_bounded_queue [0, 1, 2] 9).1 (by decide)

/-- Counterexample to claim C9 as stated: a successful open with zero
successful reads resets the retry counter from 4 to 0 — the counter is
reset merely because the device opened. -/
theorem claim9_counterexample :
    capture_step 4 (CamEvent.openOk 0) = 0 ∧
    capture_step 4 (CamEvent.openOk 0) ≠ 4 := by
  decide

theorem capture_run_flapping (j : Nat) :
    capture_run 0 (List.replicate j (CamEvent.openOk 0)) = 0 := by
  induction j with
  | zero => rfl
  | succ n ih => simpa [List.replicate_succ, capture_run, capture_step] using ih

/-- Claim C9 (amended): `capture_frames` resets the retry counter
immediately upon a successful device open, before any read; a failed open
increments it. Consequently a flapping device — every open succeeds, every
first read fails — keeps the counter at 0, strictly below
`MAX_CAMERA_RETRIES`, and the loop retries indefinitely. -/
theorem claim9_reset_on_open (retry_count n k : Nat) (hk : 0 < k) :
    capture_step retry_count (CamEvent.openOk n) = 0 ∧
    capture_step retry_count CamEvent.openFail = retry_count + 1 ∧
    capture_run retry_count (List.replicate k (CamEvent.openOk 0)) = 0 ∧
    capture_run retry_count (List.replicate k (CamEvent.openOk 0)) <
      MAX_CAMERA_RETRIES := by
  have hrun : capture_run retry_count (List.replicate k (CamEvent.openOk 0)) = 0 := by
    cases k with
    | zero => exact absurd hk (by simp)
    | succ j =>
      rw [List.replicate_succ, capture_run]
      exact capture_run_flapping j
  exact ⟨rfl, rfl, hrun, by rw [hrun]; decide⟩

/-- Witness for the amended C9: two flapping cycles from a counter of 3. -/
theorem claim9_reset_on_open_witness :
    capture_step 3 (CamEvent.openOk 0) = 0 ∧
    capture_step 3 CamEvent.openFail = 3 + 1 ∧
    capture_run 3 (List.replicate 2 (CamEvent.openOk 0)) = 0 ∧
    capture_run 3 (List.replicate 2 (CamEvent.openOk 0)) <
      MAX_CAMERA_RETRIES :=
  claim9_reset_on_open 3 0 2 (by decide)

/-- The in-memory fast path of `log_attendance` (lines 301-306): when the
person is already in the dedup set for the window's section, the call
returns `False` and touches nothing but the lazy key init. -/
theorem log_attendance_fast_path (db : DB) (dedup : Dedup)
    (w : AttendanceWindow) (faults : Faults) (matric today : String)
    (h : dedup_mem (dedup_init_key dedup w.section_id) w.section_id matric =
      true) :
    log_attendance true (some w) db dedup faults matric today =
      (false, db, dedup_init_key dedup w.section_id) := by
  simp [log_attendance, h]

/-- Claim C5: a first call with the person not yet logged (in memory or in
storage) writes exactly one record and returns success; an immediately
repeated call with the same person and window returns the no-write result
on the in-memory fast path, changes no storage state, and the store holds
exactly one record for that (person, session). -/
theorem claim5_written_then_skipped (db : DB) (dedup : Dedup)
    (w : AttendanceWindow) (student : StudentRow) (matric today : String)
    (hded : dedup_mem (dedup_init_key dedup w.section_id) w.section_id matric
      = false)
    (hstu : db.students.find? (fun s => s.matric_no == matric) = some student)
    (henr : db.enrollments.any
      (fun e => e.student_id == student.id && e.section_id == w.section_id) =
      true)
    (hsess : db.class_sessions.find?
      (fun s => s.section_id == w.section_id && s.class_date == today) = none)
    (hrec : db.attendance_records.any (fun r => r.student_id == student.id &&
      r.class_session_id == ("session_" ++ w.section_id ++ "_" ++ today)) =
      false) :
    let r1 := log_attendance true (some w) db dedup noFaults matric today
    let r2 := log_attendance true (some w) r1.2.1 r1.2.2 noFaults matric today
    r1.1 = true ∧ r2.1 = false ∧ r2.2.1 = r1.2.1 ∧
      r1.2.1.attendance_records.countP
        (fun r => r.student_id == student.id &&
          r.class_session_id == ("session_" ++ w.section_id ++ "_" ++ today)) =
        1 := by
  intro r1 r2
  have hr11 : r1.1 = true := by
    show (log_attendance true (some w) db dedup noFaults matric today).1 = true
    by_cases hc : db.student_course_attendance.any
        (fun c => c.student_id == student.id && c.course_id == w.course_id) =
        true <;>
      simp [log_attendance, get_student_cached, get_or_create_class_session,
        noFaults, hded, hstu, henr, hsess, hrec, hc]
  have hrecs : r1.2.1.attendance_records = db.attendance_records ++
      [{ id := "att_" ++ student.id ++ "_" ++
           ("session_" ++ w.section_id ++ "_" ++ today) ++ "_" ++ today
         student_id := student.id
         class_session_id := "session_" ++ w.section_id ++ "_" ++ today
         status := w.status }] := by
    show (log_attendance true (some w) db dedup noFaults matric
      today).2.1.attendance_records = _
    by_cases hc : db.student_course_attendance.any
        (fun c => c.student_id == student.id && c.course_id == w.course_id) =
        true <;>
      simp [log_attendance, get_student_cached, get_or_create_class_session,
        noFaults, hded, hstu, henr, hsess, hrec, hc]
  have hdd : r1.2.2 =
      dedup_add (dedup_init_key dedup w.section_id) w.section_id matric := by
    show (log_attendance true (some w) db dedup noFaults matric today).2.2 = _
    by_cases hc : db.student_course_attendance.any
        (fun c => c.student_id == student.id && c.course_id == w.course_id) =
        true <;>
      simp [log_attendance, get_student_cached, get_or_create_class_session,
        noFaults, hded, hstu, henr, hsess, hrec, hc]
  have hmem : dedup_mem (dedup_init_key r1.2.2 w.section_id) w.section_id
      matric = true := by
    rw [hdd, dedup_mem_init_key]
    exact dedup_mem_add_self _ _ _ (dedup_has_key_init dedup w.section_id)
  have hr2 : r2 = (false, r1.2.1, dedup_init_key r1.2.2 w.section_id) :=
    log_attendance_fast_path r1.2.1 r1.2.2 w noFaults matric today hmem
  have h0 : db.attendance_records.countP
      (fun r => r.student_id == student.id &&
        r.class_session_id == ("session_" ++ w.section_id ++ "_" ++ today)) =
      0 := by
    rw [List.countP_eq_zero]
    intro a ha hpa
    have hany : db.attendance_records.any
        (fun r => r.student_id == student.id &&
          r.class_session_id == ("session_" ++ w.section_id ++ "_" ++ today)) =
        true := List.any_eq_true.mpr ⟨a, ha, hpa⟩
    rw [hrec] at hany
    exact Bool.noConfusion hany
  refine ⟨hr11, by rw [hr2], by rw [hr2], ?_⟩
  rw [hrecs, List.countP_append, h0]
  simp

/-- `log_attendance` with only the `attendance_records` insert raising. -/
def insertFault : Faults := { noFaults with attendance_insert := true }

/-- Claim C6: when every guard passes but the `attendance_records` insert
itself raises, the call returns `False`, storage is unchanged (in
particular no `student_course_attendance` row appears), dedup membership is
unchanged, and an identical retry with the insert no longer failing
succeeds. -/
theorem claim6_insert_failure (db : DB) (dedup : Dedup) (w : AttendanceWindow)
    (student : StudentRow) (srow : SessionRow) (matric today : String)
    (hded : dedup_mem (dedup_init_key dedup w.section_id) w.section_id matric
      = false)
    (hstu : db.students.find? (fun s => s.matric_no == matric) = some student)
    (henr : db.enrollments.any
      (fun e => e.student_id == student.id && e.section_id == w.section_id) =
      true)
    (hsess : db.class_sessions.find?
      (fun s => s.section_id == w.section_id && s.class_date == today) =
      some srow)
    (hrec : db.attendance_records.any (fun r => r.student_id == student.id &&
      r.class_session_id == srow.id) = false) :
    let r := log_attendance true (some w) db dedup insertFault matric today
    r.1 = false ∧ r.2.1 = db ∧
      (∀ k m, dedup_mem r.2.2 k m = dedup_mem dedup k m) ∧
      (log_attendance true (some w) db r.2.2 noFaults matric today).1 =
        true := by
  intro r
  have hr : r = (false, db, dedup_init_key dedup w.section_id) := by
    show log_attendance true (some w) db dedup insertFault matric today = _
    simp [log_attendance, get_student_cached, get_or_create_class_session,
      insertFault, noFaults, hded, hstu, henr, hsess, hrec]
  have hded2 : dedup_mem
      (dedup_init_key (dedup_init_key dedup w.section_id) w.section_id)
      w.section_id matric = false := by
    rw [dedup_init_key_idem]; exact hded
  refine ⟨by rw [hr], by rw [hr], ?_, ?_⟩
  · intro k m
    rw [hr]
    exact dedup_mem_init_key dedup w.section_id k m
  · rw [hr]
    by_cases hc : db.student_course_attendance.any
        (fun c => c.student_id == student.id && c.course_id == w.course_id) =
        true <;>
      simp [log_attendance, get_student_cached, get_or_create_class_session,
        noFaults, hded2, hstu, henr, hsess, hrec, hc]

/-- Witness for C5: the enrolled demo student on a fresh day. -/
theorem claim5_written_then_skipped_witness :
    (log_attendance true (some c4_window) c4_db [] noFaults "A123"
      "2025-01-01").1 = true :=
  (claim5_written_then_skipped c4_db [] c4_window
    { id := "stu1", matric_no := "A123", nickname := "Al" } "A123"
    "2025-01-01" (by decide) (by decide) (by decide) (by decide)
    (by decide)).1

/-- A storage state with the enrolled demo student and today's session
already created. -/
def c6_db : DB :=
  { students := [{ id := "stu1", matric_no := "A123", nickname := "Al" }]
    enrollments := [{ student_id := "stu1", section_id := "S1" }]
    class_sessions := [{ id := "session_S1_2025-01-01", section_id := "S1"
                         class_date := "2025-01-01" }]
    attendance_records := [], student_course_attendance := [] }

/-- Witness for C6: the demo student with the record insert raising. -/
theorem claim6_insert_failure_witness :
    (log_attendance true (some c4_window) c6_db [] insertFault "A123"
      "2025-01-01").1 = false :=
  (claim6_insert_failure c6_db [] c4_window
    { id := "stu1", matric_no := "A123", nickname := "Al" }
    { id := "session_S1_2025-01-01", section_id := "S1"
      class_date := "2025-01-01" }
    "A123" "2025-01-01" (by decide) (by decide) (by decide) (by decide)
    (by decide)).1

end Cobot
